import Mathlib

/-!
Shallow embedding of the PR Review Agent analysis pipeline.

Source files modelled here:
* `analyzer.py` — penalty configuration, per-file checks, `analyze_pr`.
* `pr_fetcher.py` — `parse_local_diff`, the unified-diff parser.

External Python libraries (`radon.complexity.cc_visit`, `ast.parse` /
`ast.walk`, the `pyflakes` subprocess) are modelled as oracle parameters:
the repository code only consumes their results, so each claim is proved
for every possible oracle behaviour.  Machine integers are `Int`/`Nat`
(Python integers are unbounded, so no wraparound is needed); the
floating-point average of `python_complexity_from_code` is modelled as a
rational, which is exact for the integer sums and counts involved.
-/

namespace PRReview

/-! ### Basic string operations

Python string primitives (`startswith`, `endswith`, `in`, `strip`,
slicing, `splitlines`, `join`) re-implemented over `List Char` so that
they compute by kernel reduction. -/

/-- Character-list test used to model Python `str.startswith`:
`isPre pat s` holds when `pat` is an initial segment of `s`. -/
def isPre : List Char → List Char → Bool
  | [], _ => true
  | _ :: _, [] => false
  | p :: ps, c :: cs => p == c && isPre ps cs

/-- Models Python `s.startswith(pat)`. -/
def startsWithS (s pat : String) : Bool := isPre pat.data s.data

/-- Models Python `s.endswith(pat)`. -/
def endsWithS (s pat : String) : Bool := isPre pat.data.reverse s.data.reverse

/-- Character-list test used to model Python `pat in s`:
`isSub pat s` holds when `pat` occurs contiguously inside `s`. -/
def isSub : List Char → List Char → Bool
  | pat, [] => pat.isEmpty
  | pat, c :: cs => isPre pat (c :: cs) || isSub pat cs

/-- Models Python `pat in s` (substring containment). -/
def containsSub (s pat : String) : Bool := isSub pat.data s.data

/-- Models Python `s[n:]` for strings (drop the first `n` characters). -/
def strDrop (s : String) (n : Nat) : String := String.mk (s.data.drop n)

/-- Models Python `len(s)` for strings (number of characters). -/
def strLen (s : String) : Nat := s.data.length

/-- Whitespace set of Python `str.strip()` / regex `\s` (ASCII part;
the exotic Unicode space characters do not occur in the modelled data). -/
def pyIsSpace (c : Char) : Bool :=
  c == ' ' || c == '\t' || c == '\n' || c == '\r' || c == '\x0b' || c == '\x0c'

/-- Models Python `s.strip()`: remove leading and trailing whitespace. -/
def pyStrip (s : String) : String :=
  String.mk (((s.data.dropWhile pyIsSpace).reverse.dropWhile pyIsSpace).reverse)

/-- Line-break characters recognised by Python `str.splitlines`. -/
def isLineBreak (c : Char) : Bool :=
  c == '\n' || c == '\r' || c == '\x0b' || c == '\x0c' ||
  c == '\x1c' || c == '\x1d' || c == '\x1e' || c == '\x85' ||
  c == '\u2028' || c == '\u2029'

/-- Worker for `splitlines`; `acc` holds the current line reversed. -/
def splitlinesAux : List Char → List Char → List String
  | [], [] => []
  | [], acc => [String.mk acc.reverse]
  | '\r' :: '\n' :: rest, acc => String.mk acc.reverse :: splitlinesAux rest []
  | c :: rest, acc =>
    if isLineBreak c then String.mk acc.reverse :: splitlinesAux rest []
    else splitlinesAux rest (c :: acc)

/-- Models Python `s.splitlines()`: no trailing empty line for a final
terminator, `"\r\n"` counts as a single break. -/
def splitlines (s : String) : List String := splitlinesAux s.data []

/-- Models Python `sep.join(lines)`. -/
def joinWith (sep : String) : List String → String
  | [] => ""
  | [s] => s
  | s :: rest => s ++ (sep ++ joinWith sep rest)

/-! ### Penalty configuration (`analyzer.py` lines 30-44) -/

def PENALTY_TODO : Int := 5
def PENALTY_COMPLEXITY : Int := 2
def PENALTY_DOCSTRING : Int := 1
def PENALTY_PRINT : Int := 3
def PENALTY_PYFLAKES : Int := 1

/-- The dict `MAX_PENALTY_PER_ISSUE` as a partial lookup (`.get`). -/
def maxPenaltyPerIssue : String → Option Int
  | "todo" => some 20
  | "complexity" => some 20
  | "docstring" => some 5
  | "pyflakes" => some 10
  | "secret" => some 25
  | "large_addition" => some 5
  | _ => none

def SECRET_KEYWORDS : List String := ["PRIVATE_KEY", "API_KEY", "SECRET", "TOKEN"]

/-- The inline `factor` dict of `apply_penalty` (`analyzer.py` 137-145),
including its `.get(issue_type, 0)` default. -/
def penaltyFactor : String → Int
  | "todo" => PENALTY_TODO
  | "complexity" => PENALTY_COMPLEXITY
  | "docstring" => PENALTY_DOCSTRING
  | "pyflakes" => PENALTY_PYFLAKES
  | "print" => PENALTY_PRINT
  | "secret" => (maxPenaltyPerIssue "secret").getD 25
  | "large_addition" => (maxPenaltyPerIssue "large_addition").getD 5
  | _ => 0

/-- Models `apply_penalty` (`analyzer.py` 135-146):
`min(factor * count, MAX_PENALTY_PER_ISSUE.get(issue_type, factor))`. -/
def apply_penalty (issue_type : String) (count : Int) : Int :=
  let factor := penaltyFactor issue_type
  min (factor * count) ((maxPenaltyPerIssue issue_type).getD factor)

/-! ### Helpers of `analyzer.py` -/

/-- Models `extract_added_code` (`analyzer.py` 50-57): lines starting
with `+` but not `+++`, leading `+` stripped, joined with newlines. -/
def extract_added_code (patch_text : String) : String :=
  joinWith "\n"
    (((splitlines patch_text).filter
        (fun line => startsWithS line "+" && !(startsWithS line "+++"))).map
      (fun line => strDrop line 1))

/-- Models `count_todos` (`analyzer.py` 60-62): number of patch lines
containing `"TODO"` or `"FIXME"`. -/
def count_todos (patch_text : String) : Nat :=
  ((splitlines patch_text).filter
    (fun l => containsSub l "TODO" || containsSub l "FIXME")).length

/-- One function-like block as reported by radon's `cc_visit`. -/
structure CCBlock where
  name : String
  complexity : Nat
deriving DecidableEq, Repr

/-- Result dict of `python_complexity_from_code`. -/
structure CCResult where
  avg : Rat
  high_count : Nat
  details : List (String × Nat)
deriving DecidableEq, Repr

/-- Models `python_complexity_from_code` (`analyzer.py` 65-83), with
radon's `cc_visit` abstracted as an oracle: `none` stands for an
exception inside the `try` block, a list for a successful visit. -/
def python_complexity_from_code (ccVisit : String → Option (List CCBlock))
    (code_text : String) : Option CCResult :=
  match ccVisit code_text with
  | none => none
  | some blocks =>
    if blocks.isEmpty then none
    else
      some
        { avg := ((blocks.map CCBlock.complexity).sum : Rat) / (blocks.length : Rat)
          high_count := (blocks.filter (fun b => 10 ≤ b.complexity)).length
          details := blocks.map (fun b => (b.name, b.complexity)) }

/-- Word character of the Python regex `\b` boundary (`\w`, ASCII). -/
def pyWordChar (c : Char) : Bool := c.isAlphanum || c == '_'

/-- After the literal `print`, match `\s*\(`. -/
def matchAfterPrint : List Char → Bool
  | [] => false
  | c :: rest => if c == '(' then true else if pyIsSpace c then matchAfterPrint rest else false

/-- Match the regex tail `print\s*\(` at the head of the character list. -/
def matchPrintAt : List Char → Bool
  | 'p' :: 'r' :: 'i' :: 'n' :: 't' :: rest => matchAfterPrint rest
  | _ => false

/-- Scan for `\bprint\s*\(`, tracking whether the previous character is
a word character (for the `\b` boundary). -/
def usesPrintAux (prevIsWord : Bool) : List Char → Bool
  | [] => false
  | c :: rest =>
    (!prevIsWord && matchPrintAt (c :: rest)) || usesPrintAux (pyWordChar c) rest

/-- Models `uses_print_for_logging` (`analyzer.py` 86-88):
`re.search` for `\bprint\s*\(`. -/
def uses_print_for_logging (code_text : String) : Bool :=
  usesPrintAux false code_text.data

/-- One function/class definition seen by the `ast.walk` loop of
`missing_docstrings`; `hasDocstring` models `ast.get_docstring(node)`
being truthy. -/
structure PyDef where
  hasDocstring : Bool
deriving DecidableEq, Repr

/-- Models `missing_docstrings` (`analyzer.py` 91-103) with the `ast`
parse-and-walk abstracted as an oracle: `none` stands for a parse
failure (the `except` branch), a list of definition nodes for success. -/
def missing_docstrings (astWalk : String → Option (List PyDef))
    (code_text : String) : Option Nat :=
  match astWalk code_text with
  | none => none
  | some defs => some ((defs.filter (fun d => !d.hasDocstring)).length)

/-- Models `detect_secrets` (`analyzer.py` 130-132). -/
def detect_secrets (code_text : String) : List String :=
  SECRET_KEYWORDS.filter (fun k => containsSub code_text k)

/-! ### The lint-tool invocation (`run_pyflakes_on_code`, `analyzer.py`
106-127), modelled with an explicit filesystem state so that the fate of
the temporary file is observable. -/

/-- Outcome of the `subprocess.check_output` call. -/
inductive PyflakesOutcome where
  | success (out : String)
  | calledProcessError (output : Option String)
  | otherError
deriving DecidableEq, Repr

/-- Environment of one `run_pyflakes_on_code` call: whether
`shutil.which("pyflakes")` finds the binary, the name
`tempfile.NamedTemporaryFile` hands out, and the subprocess outcome. -/
structure LintEnv where
  whichPyflakes : Bool
  tempName : String
  invoke : PyflakesOutcome
deriving DecidableEq, Repr

/-- Filesystem state: the temporary files currently on disk, with their
contents. -/
structure FsState where
  tempFiles : List (String × String)
deriving DecidableEq, Repr

/-- Models `run_pyflakes_on_code` (`analyzer.py` 106-127).  The
`NamedTemporaryFile("w", suffix=".py", delete=False)` block writes
`code_text` to a fresh file; the source contains no deletion on any
path, which this embedding reproduces faithfully. -/
def run_pyflakes_on_code (env : LintEnv) (code_text : String)
    (s : FsState) : List String × FsState :=
  if !env.whichPyflakes then ([], s)
  else
    let fname := env.tempName
    let s1 : FsState := ⟨s.tempFiles ++ [(fname, code_text)]⟩
    match env.invoke with
    | .success out => (splitlines out, s1)
    | .calledProcessError (some out) =>
      (if out == "" then [] else splitlines out, s1)
    | .calledProcessError none => ([], s1)
    | .otherError => ([], s1)

/-! ### The per-file analysis of `analyze_pr` (`analyzer.py` 152-238) -/

/-- External behaviour the analyzer depends on: radon's `cc_visit`, the
`ast` walk of `missing_docstrings`, and the pyflakes message list that
`run_pyflakes_on_code` returns for a fragment (the analyzer's scoring
uses only the returned messages, not the filesystem state). -/
structure Oracles where
  ccVisit : String → Option (List CCBlock)
  astWalk : String → Option (List PyDef)
  pyflakes : String → List String

/-- One entry of a file's `issues` list. -/
structure Issue where
  type : String
  detail : String
deriving DecidableEq, Repr

/-- The `metrics` dict of one file result. -/
structure Metrics where
  cyclomatic : Option CCResult := none
  pyflakes_messages : Option (List String) := none
deriving DecidableEq, Repr

/-- One element of the analyzer's input `files` list, a Python dict
accessed with `f.get("filename")` / `f.get("patch", "")`; `none`
models an absent key. -/
structure PyDictFile where
  filename : Option String := none
  patch : Option String := none
deriving DecidableEq, Repr

/-- The per-file result dict built by `analyze_pr`. -/
structure FileResult where
  filename : Option String
  issues : List Issue
  metrics : Metrics
deriving DecidableEq, Repr

/-- The truthiness test `if fname and fname.endswith(".py")`. -/
def isPyFilename : Option String → Bool
  | none => false
  | some s => !(s == "") && endsWithS s ".py"

/-- The TODO check of `analyze_pr` (lines 166-172): issue list and
penalty contribution. -/
def todoCheck (patch : String) : List Issue × Int :=
  let todos := count_todos patch
  if 0 < todos then
    ([⟨"todo", toString todos ++ " TODO/FIXME found"⟩], apply_penalty "todo" todos)
  else ([], 0)

/-- Formatting of the complexity average, modelling CPython's
`f"{avg:.1f}"` for the nonnegative averages that occur (ties of the
binary-float rounding are immaterial to every claim). -/
def fmtAvg (q : Rat) : String :=
  let n : Int := round (q * 10)
  toString (n / 10) ++ "." ++ toString (n % 10)

/-- Python `int(...)` truncation toward zero, on the exact rational. -/
def pyInt (q : Rat) : Int := if 0 ≤ q then ⌊q⌋ else ⌈q⌉

/-- The complexity check of `analyze_pr` (lines 176-186): issues, the
`cyclomatic` metric entry, and penalty contribution. -/
def complexityCheck (O : Oracles) (added : String) :
    List Issue × Option CCResult × Int :=
  match python_complexity_from_code O.ccVisit added with
  | none => ([], none, 0)
  | some cc =>
    if 6 < cc.avg then
      ([⟨"complexity",
          "avg complexity " ++ fmtAvg cc.avg ++ ", high count " ++ toString cc.high_count⟩],
        some cc, apply_penalty "complexity" (pyInt cc.avg))
    else ([], some cc, 0)

/-- The docstring check of `analyze_pr` (lines 188-196); the
`isinstance(missing, int)` guard rejects the `None` of a parse
failure. -/
def docstringCheck (O : Oracles) (added : String) : List Issue × Int :=
  match missing_docstrings O.astWalk added with
  | none => ([], 0)
  | some missing =>
    if 0 < missing then
      ([⟨"docstring", toString missing ++ " missing docstrings/stubs"⟩],
        apply_penalty "docstring" missing)
    else ([], 0)

/-- The print-usage check of `analyze_pr` (lines 198-205);
`apply_penalty("print")` uses the default count 1. -/
def printCheck (added : String) : List Issue × Int :=
  if uses_print_for_logging added then
    ([⟨"print", "uses print() for logging; prefer logging module"⟩],
      apply_penalty "print" 1)
  else ([], 0)

/-- The pyflakes check of `analyze_pr` (lines 207-213): issues, the
`pyflakes_messages` metric entry, and penalty contribution. -/
def pyflakesCheck (O : Oracles) (added : String) :
    List Issue × Option (List String) × Int :=
  let msgs := O.pyflakes added
  if msgs.isEmpty then ([], none, 0)
  else
    ([⟨"pyflakes", toString msgs.length ++ " pyflakes warnings"⟩],
      some msgs, apply_penalty "pyflakes" msgs.length)

/-- The large-addition check of `analyze_pr` (lines 217-224). -/
def largeAdditionCheck (added : String) : List Issue × Int :=
  if 2000 < strLen added then
    ([⟨"large_addition", "Large addition — consider splitting"⟩],
      apply_penalty "large_addition" 1)
  else ([], 0)

/-- The secret check of `analyze_pr` (lines 226-231). -/
def secretCheck (added : String) : List Issue × Int :=
  let secrets_found := detect_secrets added
  if secrets_found.isEmpty then ([], 0)
  else
    ([⟨"secret", "Possible secrets found: " ++ joinWith ", " secrets_found⟩],
      apply_penalty "secret" 1)

/-- The body of the `for f in pr_data.get("files", [])` loop for one
file: the file result and this file's addition to `score_penalty`. -/
def analyzeFile (O : Oracles) (f : PyDictFile) : FileResult × Int :=
  let patch := f.patch.getD ""
  let added := extract_added_code patch
  let t := todoCheck patch
  if isPyFilename f.filename then
    let c := complexityCheck O added
    let d := docstringCheck O added
    let p := printCheck added
    let l := pyflakesCheck O added
    ({ filename := f.filename
       issues := t.1 ++ c.1 ++ d.1 ++ p.1 ++ l.1
       metrics := { cyclomatic := c.2.1, pyflakes_messages := l.2.1 } },
      t.2 + (c.2.2 + (d.2 + (p.2 + l.2.2))))
  else
    let g := largeAdditionCheck added
    let sc := secretCheck added
    ({ filename := f.filename
       issues := t.1 ++ g.1 ++ sc.1
       metrics := {} },
      t.2 + (g.2 + sc.2))

/-- Input of `analyze_pr`; only the `files` entry is consumed
(`pr_data.get("files", [])`). -/
structure PRInput where
  files : List PyDictFile := []

/-- The output dict of `analyze_pr`. -/
structure Report where
  files : List FileResult
  final_score : Int
  penalty : Int
deriving DecidableEq, Repr

/-- The loop of `analyze_pr`: collected file results and the
accumulated `score_penalty`. -/
def analyzeFiles (O : Oracles) : List PyDictFile → List FileResult × Int
  | [] => ([], 0)
  | f :: fs =>
    let r := analyzeFile O f
    let rest := analyzeFiles O fs
    (r.1 :: rest.1, r.2 + rest.2)

/-- Models `analyze_pr` (`analyzer.py` 152-238):
`final_score = max(total_score - score_penalty, 0)` with
`total_score = 100`. -/
def analyze_pr (O : Oracles) (pr_data : PRInput) : Report :=
  let r := analyzeFiles O pr_data.files
  { files := r.1, final_score := max (100 - r.2) 0, penalty := r.2 }

/-! ### The local diff parser (`pr_fetcher.py` 82-145) -/

/-- One parsed file record of `parse_local_diff`. -/
structure FileChange where
  filename : String
  patch : String
  additions : Nat
  deletions : Nat
deriving DecidableEq, Repr

/-- The `line.startswith("+++ b/")` marker test. -/
def isFileMarker (line : String) : Bool := startsWithS line "+++ b/"

/-- The filename taken from a marker line:
`line[len("+++ b/"):].strip()`. -/
def markerName (line : String) : String := pyStrip (strDrop line 6)

/-- The `additions` count of one flushed section. -/
def countAdditions (ls : List String) : Nat :=
  (ls.filter (fun l => startsWithS l "+" && !(startsWithS l "+++"))).length

/-- The `deletions` count of one flushed section. -/
def countDeletions (ls : List String) : Nat :=
  (ls.filter (fun l => startsWithS l "-" && !(startsWithS l "---"))).length

/-- The dict appended to `files` when a section is flushed. -/
def mkFileChange (filename : String) (cur : List String) : FileChange :=
  { filename := filename
    patch := joinWith "\n" cur
    additions := countAdditions cur
    deletions := countDeletions cur }

/-- The guarded flush `if collecting and filename: files.append(...)`;
the truthiness of `filename` rejects both `None` and `""`. -/
def flushFile (filename : Option String) (collecting : Bool)
    (cur : List String) : List FileChange :=
  match collecting, filename with
  | true, some fn => if fn = "" then [] else [mkFileChange fn cur]
  | _, _ => []

/-- The line loop of `parse_local_diff`, with state
`(filename, current_patch_lines, collecting)`; the trailing flush is
the base case. -/
def parseLines : List String → Option String → List String → Bool → List FileChange
  | [], filename, cur, collecting => flushFile filename collecting cur
  | line :: rest, filename, cur, collecting =>
    if isFileMarker line then
      flushFile filename collecting cur ++
        parseLines rest (some (markerName line)) [] true
    else if collecting then
      parseLines rest filename (cur ++ [line]) collecting
    else
      parseLines rest filename cur collecting

/-- The PR-like dict returned by `parse_local_diff`. -/
structure LocalPRData where
  repo_name : String
  pr_number : Nat
  title : String
  body : String
  files : List FileChange
  score : Int
deriving DecidableEq, Repr

/-- Models `parse_local_diff` (`pr_fetcher.py` 82-145). -/
def parse_local_diff (diff_text : String) : LocalPRData :=
  let files := parseLines (splitlines diff_text) none [] false
  let total_additions := (files.map FileChange.additions).sum
  let total_deletions := (files.map FileChange.deletions).sum
  { repo_name := "local"
    pr_number := 0
    title := "local-diff"
    body := ""
    files := files
    score := max 0 (100 - ((total_additions : Int) + (total_deletions : Int))) }

/-- Adapter feeding parsed file records to the analyzer, as `app.py` /
`pr_fetcher.py` hand the `files` dicts (which always carry `filename`
and `patch` keys) to `analyze_pr`. -/
def toPyDictFile (fc : FileChange) : PyDictFile :=
  { filename := some fc.filename, patch := some fc.patch }

/-- An oracle under which every external check is silent: `cc_visit`
and `ast.parse` fail, pyflakes reports nothing. -/
def trivialOracles : Oracles :=
  { ccVisit := fun _ => none, astWalk := fun _ => none, pyflakes := fun _ => [] }

/-- Oracle for the spec's Scenario B: the added fragment parses into a
single function block of cyclomatic complexity 12. -/
def oneBlock12 : Oracles :=
  { ccVisit := fun _ => some [⟨"f", 12⟩], astWalk := fun _ => none, pyflakes := fun _ => [] }

/-- Oracle where the `ast` parse of `missing_docstrings` fails while
the other external checks do report findings. -/
def failParseOracles : Oracles :=
  { ccVisit := fun _ => some [⟨"g", 8⟩], astWalk := fun _ => none,
    pyflakes := fun _ => ["w1"] }

/-- Scenario A file: a Python file whose patch has three lines each
containing `TODO`. -/
def todoScenarioFile : PyDictFile :=
  { filename := some "x.py", patch := some "+# TODO a\n+# TODO b\n+# TODO c" }

/-- A Python file whose added fragment exercises the non-docstring
checks. -/
def pyFileEx : PyDictFile := { filename := some "a.py", patch := some "+print (1)" }

/-- Five non-Python files, each carrying an added secret keyword: each
file hits the secret cap of 25, for a total penalty of 125. -/
def secretsPR : PRInput :=
  { files := List.replicate 5 { filename := some "notes.txt", patch := some "+API_KEY = 1" } }

/-- Added-line selection written from the spec's words for the
AddedCodeExtractor: scan the patch lines in order, keep every line that
starts with `+` and is not a `+++` file-header marker, stripped of its
leading `+`. -/
def addedLinesSpec : List String → List String
  | [] => []
  | l :: ls =>
    if startsWithS l "+" && !(startsWithS l "+++") then strDrop l 1 :: addedLinesSpec ls
    else addedLinesSpec ls

/-- The stripped paths of the `+++ b/<path>` marker lines of a diff, in
order; a marker line whose remainder strips to the empty string
introduces no file and carries no path. -/
def pathList (ls : List String) : List String :=
  ((ls.filter isFileMarker).map markerName).filter (fun n => !(n == ""))

/-- The stripped path of the last `+++ b/<path>` marker line of a
diff. -/
def lastMarkerPath (ls : List String) : Option String :=
  (pathList ls).getLast?

/-! ### Helper lemmas: the penalty table -/

theorem apply_penalty_todo (c : Int) : apply_penalty "todo" c = min (5 * c) 20 := rfl

theorem apply_penalty_complexity (c : Int) :
    apply_penalty "complexity" c = min (2 * c) 20 := rfl

theorem apply_penalty_docstring (c : Int) : apply_penalty "docstring" c = min c 5 := by
  unfold apply_penalty penaltyFactor maxPenaltyPerIssue
  norm_num [PENALTY_DOCSTRING]

theorem apply_penalty_print (c : Int) : apply_penalty "print" c = min (3 * c) 3 := rfl

theorem apply_penalty_pyflakes (c : Int) : apply_penalty "pyflakes" c = min c 10 := by
  unfold apply_penalty penaltyFactor maxPenaltyPerIssue
  norm_num [PENALTY_PYFLAKES]

theorem apply_penalty_secret (c : Int) : apply_penalty "secret" c = min (25 * c) 25 := rfl

theorem apply_penalty_large (c : Int) :
    apply_penalty "large_addition" c = min (5 * c) 5 := rfl

/-! ### Helper lemmas: check penalties are nonnegative -/

theorem todoCheck_pen_nonneg (p : String) : 0 ≤ (todoCheck p).2 := by
  unfold todoCheck
  dsimp only
  split
  · rw [apply_penalty_todo]
    exact le_min (by positivity) (by norm_num)
  · exact le_refl 0

theorem pyInt_nonneg {q : Rat} (h : 0 ≤ q) : 0 ≤ pyInt q := by
  unfold pyInt
  rw [if_pos h]
  exact Int.floor_nonneg.mpr h

theorem complexityCheck_pen_nonneg (O : Oracles) (a : String) :
    0 ≤ (complexityCheck O a).2.2 := by
  unfold complexityCheck
  cases hcc : python_complexity_from_code O.ccVisit a with
  | none => exact le_refl 0
  | some cc =>
    dsimp only
    split
    · rename_i h6
      rw [apply_penalty_complexity]
      have hq : (0 : Rat) ≤ cc.avg := by linarith
      exact le_min (mul_nonneg (by norm_num) (pyInt_nonneg hq)) (by norm_num)
    · exact le_refl 0

theorem docstringCheck_pen_nonneg (O : Oracles) (a : String) :
    0 ≤ (docstringCheck O a).2 := by
  unfold docstringCheck
  cases hmd : missing_docstrings O.astWalk a with
  | none => exact le_refl 0
  | some missing =>
    dsimp only
    split
    · rw [apply_penalty_docstring]
      exact le_min (Int.natCast_nonneg _) (by norm_num)
    · exact le_refl 0

theorem printCheck_pen_nonneg (a : String) : 0 ≤ (printCheck a).2 := by
  unfold printCheck
  split
  · rw [apply_penalty_print]; norm_num
  · exact le_refl 0

theorem pyflakesCheck_pen_nonneg (O : Oracles) (a : String) :
    0 ≤ (pyflakesCheck O a).2.2 := by
  unfold pyflakesCheck
  dsimp only
  split
  · exact le_refl 0
  · rw [apply_penalty_pyflakes]
    exact le_min (Int.natCast_nonneg _) (by norm_num)

theorem largeAdditionCheck_pen_nonneg (a : String) : 0 ≤ (largeAdditionCheck a).2 := by
  unfold largeAdditionCheck
  split
  · rw [apply_penalty_large]; norm_num
  · exact le_refl 0

theorem secretCheck_pen_nonneg (a : String) : 0 ≤ (secretCheck a).2 := by
  unfold secretCheck
  dsimp only
  split
  · exact le_refl 0
  · rw [apply_penalty_secret]; norm_num

theorem analyzeFile_pen_nonneg (O : Oracles) (f : PyDictFile) :
    0 ≤ (analyzeFile O f).2 := by
  unfold analyzeFile
  dsimp only
  split
  · exact add_nonneg (todoCheck_pen_nonneg _)
      (add_nonneg (complexityCheck_pen_nonneg _ _)
        (add_nonneg (docstringCheck_pen_nonneg _ _)
          (add_nonneg (printCheck_pen_nonneg _) (pyflakesCheck_pen_nonneg _ _))))
  · exact add_nonneg (todoCheck_pen_nonneg _)
      (add_nonneg (largeAdditionCheck_pen_nonneg _) (secretCheck_pen_nonneg _))

theorem analyzeFiles_pen_nonneg (O : Oracles) (fs : List PyDictFile) :
    0 ≤ (analyzeFiles O fs).2 := by
  induction fs with
  | nil => exact le_refl 0
  | cons f fs ih =>
    unfold analyzeFiles
    dsimp only
    exact add_nonneg (analyzeFile_pen_nonneg O f) ih

theorem analyzeFiles_pen_sum (O : Oracles) (fs : List PyDictFile) :
    (analyzeFiles O fs).2 = (fs.map (fun f => (analyzeFile O f).2)).sum := by
  induction fs with
  | nil => rfl
  | cons f fs ih =>
    unfold analyzeFiles
    dsimp only
    rw [List.map_cons, List.sum_cons, ih]

/-! ### Helper lemmas: issue types emitted by each check -/

theorem todoCheck_types (p : String) : ∀ i ∈ (todoCheck p).1, i.type = "todo" := by
  unfold todoCheck
  dsimp only
  split <;> intro i hi <;> simp_all

theorem complexityCheck_types (O : Oracles) (a : String) :
    ∀ i ∈ (complexityCheck O a).1, i.type = "complexity" := by
  unfold complexityCheck
  cases hcc : python_complexity_from_code O.ccVisit a with
  | none => intro i hi; simp_all
  | some cc =>
    dsimp only
    split <;> intro i hi <;> simp_all

theorem docstringCheck_types (O : Oracles) (a : String) :
    ∀ i ∈ (docstringCheck O a).1, i.type = "docstring" := by
  unfold docstringCheck
  cases hmd : missing_docstrings O.astWalk a with
  | none => intro i hi; simp_all
  | some missing =>
    dsimp only
    split <;> intro i hi <;> simp_all

theorem printCheck_types (a : String) : ∀ i ∈ (printCheck a).1, i.type = "print" := by
  unfold printCheck
  split <;> intro i hi <;> simp_all

theorem pyflakesCheck_types (O : Oracles) (a : String) :
    ∀ i ∈ (pyflakesCheck O a).1, i.type = "pyflakes" := by
  unfold pyflakesCheck
  dsimp only
  split <;> intro i hi <;> simp_all

theorem largeAdditionCheck_types (a : String) :
    ∀ i ∈ (largeAdditionCheck a).1, i.type = "large_addition" := by
  unfold largeAdditionCheck
  split <;> intro i hi <;> simp_all

theorem secretCheck_types (a : String) : ∀ i ∈ (secretCheck a).1, i.type = "secret" := by
  unfold secretCheck
  dsimp only
  split <;> intro i hi <;> simp_all

theorem filter_type_eq_nil (t : String) (l : List Issue)
    (h : ∀ i ∈ l, i.type ≠ t) : l.filter (fun i => i.type == t) = [] := by
  rw [List.filter_eq_nil_iff]
  intro i hi
  simpa using h i hi

/-! ### Helper lemmas: the diff parser -/

theorem flushFile_false (fn : Option String) (cur : List String) :
    flushFile fn false cur = [] := by
  cases fn <;> rfl

theorem parseLines_noMarker_notCollecting (ls : List String) :
    ∀ (fn : Option String) (cur : List String),
      (∀ l ∈ ls, isFileMarker l = false) → parseLines ls fn cur false = [] := by
  induction ls with
  | nil => intro fn cur _; exact flushFile_false fn cur
  | cons line rest ih =>
    intro fn cur h
    have hline : isFileMarker line = false := h line (by simp)
    unfold parseLines
    rw [hline]
    simp only [Bool.false_eq_true, if_false]
    exact ih fn cur (fun l hl => h l (by simp [hl]))

theorem pathList_cons_marker_ne {line : String} (rest : List String)
    (hmark : isFileMarker line = true) (hn : ¬ markerName line = "") :
    pathList (line :: rest) = markerName line :: pathList rest := by
  unfold pathList
  rw [List.filter_cons, if_pos hmark, List.map_cons, List.filter_cons,
    if_pos (by simpa using hn)]

theorem pathList_cons_marker_empty {line : String} (rest : List String)
    (hmark : isFileMarker line = true) (hn : markerName line = "") :
    pathList (line :: rest) = pathList rest := by
  unfold pathList
  rw [List.filter_cons, if_pos hmark, List.map_cons, List.filter_cons,
    if_neg (by simp [hn])]

theorem pathList_cons_nonmarker {line : String} (rest : List String)
    (hmark : isFileMarker line = false) :
    pathList (line :: rest) = pathList rest := by
  unfold pathList
  rw [List.filter_cons, if_neg (by simp [hmark])]

theorem pathList_nil_all_empty {ls : List String} (h : pathList ls = []) :
    ∀ l ∈ ls, isFileMarker l = true → markerName l = "" := by
  intro l hl hlm
  by_contra hne
  have hmm : markerName l ∈ pathList ls := by
    apply List.mem_filter.mpr
    refine ⟨List.mem_map_of_mem _ (List.mem_filter.mpr ⟨hl, by simp [hlm]⟩), ?_⟩
    simpa using hne
  rw [h] at hmm
  simp at hmm

theorem parseLines_emptyName_allEmpty (ls : List String) :
    ∀ cur : List String,
      (∀ l ∈ ls, isFileMarker l = true → markerName l = "") →
      parseLines ls (some "") cur true = [] := by
  induction ls with
  | nil =>
    intro cur _
    unfold parseLines flushFile
    simp
  | cons line rest ih =>
    intro cur h
    by_cases hmark : isFileMarker line = true
    · unfold parseLines
      rw [hmark]
      simp only [if_true]
      rw [h line (by simp) hmark]
      rw [ih [] (fun l hl => h l (by simp [hl]))]
      unfold flushFile
      simp
    · have hmark' : isFileMarker line = false := by simpa using hmark
      unfold parseLines
      rw [hmark']
      simp only [Bool.false_eq_true, if_false, if_true]
      exact ih (cur ++ [line]) (fun l hl => h l (by simp [hl]))

theorem parseLines_allEmpty_getLast (ls : List String) :
    ∀ (fn : String) (cur : List String), fn ≠ "" →
      (∀ l ∈ ls, isFileMarker l = true → markerName l = "") →
      ((parseLines ls (some fn) cur true).map FileChange.filename).getLast? = some fn := by
  induction ls with
  | nil =>
    intro fn cur hfn _
    unfold parseLines flushFile
    dsimp only
    rw [if_neg hfn]
    rfl
  | cons line rest ih =>
    intro fn cur hfn h
    by_cases hmark : isFileMarker line = true
    · unfold parseLines
      rw [hmark]
      simp only [if_true]
      rw [h line (by simp) hmark]
      rw [parseLines_emptyName_allEmpty rest [] (fun l hl => h l (by simp [hl]))]
      unfold flushFile
      dsimp only
      rw [if_neg hfn]
      simp [mkFileChange]
    · have hmark' : isFileMarker line = false := by simpa using hmark
      unfold parseLines
      rw [hmark']
      simp only [Bool.false_eq_true, if_false, if_true]
      exact ih fn (cur ++ [line]) hfn (fun l hl => h l (by simp [hl]))

theorem parseLines_lastMarkerPath (ls : List String) :
    ∀ (fn : Option String) (cur : List String) (c : Bool) (m : String),
      lastMarkerPath ls = some m →
      ((parseLines ls fn cur c).map FileChange.filename).getLast? = some m := by
  induction ls with
  | nil =>
    intro fn cur c m hm
    simp [lastMarkerPath, pathList] at hm
  | cons line rest ih =>
    intro fn cur c m hm
    by_cases hmark : isFileMarker line = true
    · unfold parseLines
      rw [hmark]
      simp only [if_true]
      by_cases hrest : pathList rest = []
      · have hm2 : markerName line ≠ "" ∧ markerName line = m := by
          by_cases hn : markerName line = ""
          · exfalso
            unfold lastMarkerPath at hm
            rw [pathList_cons_marker_empty rest hmark hn, hrest] at hm
            simp at hm
          · refine ⟨hn, ?_⟩
            unfold lastMarkerPath at hm
            rw [pathList_cons_marker_ne rest hmark hn, hrest] at hm
            simpa using hm
        have hall := pathList_nil_all_empty hrest
        have hA := parseLines_allEmpty_getLast rest (markerName line) [] hm2.1 hall
        have hnn : (parseLines rest (some (markerName line)) [] true).map
            FileChange.filename ≠ [] := by
          intro h0
          rw [h0] at hA
          simp at hA
        rw [List.map_append, List.getLast?_append_of_ne_nil _ hnn, hA, hm2.2]
      · have hm2 : lastMarkerPath rest = some m := by
          unfold lastMarkerPath at hm ⊢
          by_cases hn : markerName line = ""
          · rwa [pathList_cons_marker_empty rest hmark hn] at hm
          · rw [pathList_cons_marker_ne rest hmark hn] at hm
            rwa [show markerName line :: pathList rest
                = [markerName line] ++ pathList rest from rfl,
              List.getLast?_append_of_ne_nil _ hrest] at hm
        have hrec := ih (some (markerName line)) [] true m hm2
        have hnn : (parseLines rest (some (markerName line)) [] true).map
            FileChange.filename ≠ [] := by
          intro h0
          rw [h0] at hrec
          simp at hrec
        rw [List.map_append, List.getLast?_append_of_ne_nil _ hnn]
        exact hrec
    · have hmark' : isFileMarker line = false := by simpa using hmark
      have hm2 : lastMarkerPath rest = some m := by
        unfold lastMarkerPath at hm ⊢
        rwa [pathList_cons_nonmarker rest hmark'] at hm
      unfold parseLines
      rw [hmark']
      simp only [Bool.false_eq_true, if_false]
      cases c with
      | false =>
        rw [if_neg (by simp)]
        exact ih fn cur false m hm2
      | true =>
        rw [if_pos rfl]
        exact ih fn (cur ++ [line]) true m hm2

theorem todoCheck_filter (p : String) :
    ((todoCheck p).1.filter (fun i => i.type == "todo")).length =
      if 0 < count_todos p then 1 else 0 := by
  unfold todoCheck
  dsimp only
  split <;> rename_i h <;> simp [h]

theorem addedLines_eq_spec (ls : List String) :
    (ls.filter (fun line => startsWithS line "+" && !(startsWithS line "+++"))).map
      (fun line => strDrop line 1) = addedLinesSpec ls := by
  induction ls with
  | nil => rfl
  | cons l ls ih =>
    by_cases hp : (startsWithS l "+" && !(startsWithS l "+++")) = true
    · simp only [addedLinesSpec, List.filter_cons, hp, if_true, List.map_cons, ih]
    · simp only [addedLinesSpec, List.filter_cons, hp, Bool.false_eq_true, if_false, ih]

/-! ### The claims -/

/-- C1: for every oracle behaviour and every input to the analysis
pipeline, the report's `final_score` equals `max(0, 100 - penalty)`, so
`final_score` is always between 0 and 100 inclusive. -/
theorem C1_final_score_clamped (O : Oracles) (pr_data : PRInput) :
    (analyze_pr O pr_data).final_score =
      max (100 - (analyze_pr O pr_data).penalty) 0 ∧
    0 ≤ (analyze_pr O pr_data).final_score ∧
    (analyze_pr O pr_data).final_score ≤ 100 := by
  refine ⟨rfl, le_max_right _ _, ?_⟩
  have h := analyzeFiles_pen_nonneg O pr_data.files
  have he : (analyze_pr O pr_data).final_score =
      max (100 - (analyzeFiles O pr_data.files).2) 0 := rfl
  rw [he]
  exact max_le (by linarith) (by norm_num)

/-- C2: for every issue type and every occurrence count `n`, the
penalty is `min(weight * n, cap)` with the configured weights and
caps (todo 5/20, complexity 2/20, docstring 1/5, print 3/3, lint
(pyflakes) 1/10, secret 25/25, large_addition 5/5), and therefore never
exceeds that type's cap. -/
theorem C2_per_type_penalty_formula (n : Nat) :
    (apply_penalty "todo" n = min (5 * (n : Int)) 20 ∧ apply_penalty "todo" n ≤ 20) ∧
    (apply_penalty "complexity" n = min (2 * (n : Int)) 20 ∧
      apply_penalty "complexity" n ≤ 20) ∧
    (apply_penalty "docstring" n = min (n : Int) 5 ∧ apply_penalty "docstring" n ≤ 5) ∧
    (apply_penalty "print" n = min (3 * (n : Int)) 3 ∧ apply_penalty "print" n ≤ 3) ∧
    (apply_penalty "pyflakes" n = min (n : Int) 10 ∧ apply_penalty "pyflakes" n ≤ 10) ∧
    (apply_penalty "secret" n = min (25 * (n : Int)) 25 ∧
      apply_penalty "secret" n ≤ 25) ∧
    (apply_penalty "large_addition" n = min (5 * (n : Int)) 5 ∧
      apply_penalty "large_addition" n ≤ 5) :=
  ⟨⟨apply_penalty_todo _, by rw [apply_penalty_todo]; exact min_le_right _ _⟩,
    ⟨apply_penalty_complexity _, by rw [apply_penalty_complexity]; exact min_le_right _ _⟩,
    ⟨apply_penalty_docstring _, by rw [apply_penalty_docstring]; exact min_le_right _ _⟩,
    ⟨apply_penalty_print _, by rw [apply_penalty_print]; exact min_le_right _ _⟩,
    ⟨apply_penalty_pyflakes _, by rw [apply_penalty_pyflakes]; exact min_le_right _ _⟩,
    ⟨apply_penalty_secret _, by rw [apply_penalty_secret]; exact min_le_right _ _⟩,
    apply_penalty_large _, by rw [apply_penalty_large]; exact min_le_right _ _⟩

/-- C3: for every diff text containing at least one `+++ b/<path>` file
marker (a marker line whose stripped remainder is a nonempty path), the
parser flushes the last accumulated section at end of input, so the
file introduced by the final such marker is the last `FileChange` of
the output. -/
theorem C3_last_file_flushed (diff_text : String) (m : String)
    (hm : lastMarkerPath (splitlines diff_text) = some m) :
    ((parse_local_diff diff_text).files.map FileChange.filename).getLast? = some m := by
  have h := parseLines_lastMarkerPath (splitlines diff_text) none [] false m hm
  simpa [parse_local_diff] using h

theorem C3_witness :
    ((parse_local_diff "+++ b/x.py\n+a\n+++ b/y.py\n+b").files.map
      FileChange.filename).getLast? = some "y.py" :=
  C3_last_file_flushed "+++ b/x.py\n+a\n+++ b/y.py\n+b" "y.py" (by decide)

/-- C4: for every patch text, the added-code extractor returns the
newline-joined, order-preserved concatenation of exactly those lines
that start with `+`, excluding the `+++` file-header marker lines, each
with its leading `+` stripped (the right-hand selection
`addedLinesSpec` is written from the spec's words). -/
theorem C4_extract_added_code_spec (patch_text : String) :
    extract_added_code patch_text =
      joinWith "\n" (addedLinesSpec (splitlines patch_text)) := by
  unfold extract_added_code
  rw [addedLines_eq_spec]

/-- C5: the TODO scanner counts lines of the whole raw patch (here a
removed line counts too) containing `TODO` or `FIXME`, the analyzer
emits exactly one todo issue precisely when the count is positive, and
for a file whose patch has 3 lines each containing `TODO` it emits
`{type: todo, detail: "3 TODO/FIXME found"}` with penalty 15. -/
theorem C5_todo_scanner :
    (∀ (O : Oracles) (f : PyDictFile),
        ((analyzeFile O f).1.issues.filter (fun i => i.type == "todo")).length =
          if 0 < count_todos (f.patch.getD "") then 1 else 0) ∧
    count_todos "-x = 1  # TODO remove" = 1 ∧
    (analyzeFile trivialOracles todoScenarioFile).1.issues =
      [⟨"todo", "3 TODO/FIXME found"⟩] ∧
    (analyzeFile trivialOracles todoScenarioFile).2 = 15 := by
  refine ⟨?_, by decide, by decide, by decide⟩
  intro O f
  unfold analyzeFile
  dsimp only
  split
  · have hc : List.filter (fun i => i.type == "todo")
        (complexityCheck O (extract_added_code (f.patch.getD ""))).1 = [] :=
      filter_type_eq_nil _ _ (fun i hi => by rw [complexityCheck_types O _ i hi]; decide)
    have hd : List.filter (fun i => i.type == "todo")
        (docstringCheck O (extract_added_code (f.patch.getD ""))).1 = [] :=
      filter_type_eq_nil _ _ (fun i hi => by rw [docstringCheck_types O _ i hi]; decide)
    have hp : List.filter (fun i => i.type == "todo")
        (printCheck (extract_added_code (f.patch.getD ""))).1 = [] :=
      filter_type_eq_nil _ _ (fun i hi => by rw [printCheck_types _ i hi]; decide)
    have hl : List.filter (fun i => i.type == "todo")
        (pyflakesCheck O (extract_added_code (f.patch.getD ""))).1 = [] :=
      filter_type_eq_nil _ _ (fun i hi => by rw [pyflakesCheck_types O _ i hi]; decide)
    rw [List.filter_append, List.filter_append, List.filter_append, List.filter_append,
      hc, hd, hp, hl]
    simp only [List.append_nil]
    exact todoCheck_filter _
  · have hg : List.filter (fun i => i.type == "todo")
        (largeAdditionCheck (extract_added_code (f.patch.getD ""))).1 = [] :=
      filter_type_eq_nil _ _ (fun i hi => by rw [largeAdditionCheck_types _ i hi]; decide)
    have hs : List.filter (fun i => i.type == "todo")
        (secretCheck (extract_added_code (f.patch.getD ""))).1 = [] :=
      filter_type_eq_nil _ _ (fun i hi => by rw [secretCheck_types _ i hi]; decide)
    rw [List.filter_append, List.filter_append, hg, hs]
    simp only [List.append_nil]
    exact todoCheck_filter _

/-- C6: whenever the added fragment parses into at least one block, the
complexity analyzer records the `cyclomatic` metric whose average is
the arithmetic mean of the block complexities and emits a complexity
issue exactly when that mean exceeds 6, with penalty
`min(2 * truncated mean, 20)`; when the fragment fails to parse or
yields zero blocks it produces no issue, no metric and no penalty; and
a single function of complexity 12 yields penalty 20. -/
theorem C6_complexity_analyzer :
    (∀ (O : Oracles) (code_text : String) (blocks : List CCBlock),
        O.ccVisit code_text = some blocks → blocks ≠ [] →
        ∃ cc, python_complexity_from_code O.ccVisit code_text = some cc ∧
          cc.avg = ((blocks.map CCBlock.complexity).sum : Rat) / (blocks.length : Rat) ∧
          ((complexityCheck O code_text).1 = [] ↔ ¬ 6 < cc.avg) ∧
          (complexityCheck O code_text).2.1 = some cc ∧
          (6 < cc.avg →
            (complexityCheck O code_text).2.2 = min (2 * pyInt cc.avg) 20)) ∧
    (∀ (O : Oracles) (code_text : String),
        python_complexity_from_code O.ccVisit code_text = none →
        complexityCheck O code_text = ([], none, 0)) ∧
    complexityCheck oneBlock12 "x" =
      ([⟨"complexity", "avg complexity 12.0, high count 1"⟩],
        some ⟨12, 1, [("f", 12)]⟩, 20) := by
  have h12 : python_complexity_from_code oneBlock12.ccVisit "x" =
      some ⟨12, 1, [("f", 12)]⟩ := by
    unfold python_complexity_from_code oneBlock12
    dsimp only
    rw [if_neg (by decide : ¬(List.isEmpty [(⟨"f", 12⟩ : CCBlock)]) = true)]
    simp only [Option.some.injEq, CCResult.mk.injEq]
    refine ⟨by norm_num, by decide, rfl⟩
  have hsc : complexityCheck oneBlock12 "x" =
      ([⟨"complexity", "avg complexity 12.0, high count 1"⟩],
        some ⟨12, 1, [("f", 12)]⟩, 20) := by
    unfold complexityCheck
    rw [h12]
    dsimp only
    rw [if_pos (by norm_num : (6 : Rat) < 12)]
    have hf : fmtAvg 12 = "12.0" := by
      unfold fmtAvg
      rw [show ((12 : Rat) * 10) = ((120 : Int) : Rat) by norm_num, round_intCast]
      rfl
    have hpi : pyInt 12 = 12 := by
      unfold pyInt
      rw [if_pos (by norm_num : (0 : Rat) ≤ 12)]
      norm_num
    rw [hf, hpi, apply_penalty_complexity]
    norm_num
    decide
  refine ⟨?_, ?_, hsc⟩
  · intro O code_text blocks hv hne
    have hne' : blocks.isEmpty = false := by
      cases blocks with
      | nil => exact absurd rfl hne
      | cons b bs => rfl
    have hres : python_complexity_from_code O.ccVisit code_text =
        some { avg := ((blocks.map CCBlock.complexity).sum : Rat) / (blocks.length : Rat)
               high_count := (blocks.filter (fun b => 10 ≤ b.complexity)).length
               details := blocks.map (fun b => (b.name, b.complexity)) } := by
      unfold python_complexity_from_code
      rw [hv]
      dsimp only
      rw [if_neg (by simp [hne'])]
    refine ⟨_, hres, rfl, ?_, ?_, ?_⟩
    · unfold complexityCheck
      rw [hres]
      dsimp only
      by_cases h6 : (6 : Rat) <
          ((blocks.map CCBlock.complexity).sum : Rat) / (blocks.length : Rat)
      · rw [if_pos h6]
        simpa using h6
      · rw [if_neg h6]
        simpa using h6
    · unfold complexityCheck
      rw [hres]
      dsimp only
      by_cases h6 : (6 : Rat) <
          ((blocks.map CCBlock.complexity).sum : Rat) / (blocks.length : Rat)
      · rw [if_pos h6]
      · rw [if_neg h6]
    · intro h6
      unfold complexityCheck
      rw [hres]
      dsimp only
      rw [if_pos h6]
      dsimp only
      rw [apply_penalty_complexity]
  · intro O code_text h
    unfold complexityCheck
    rw [h]

theorem C6_witness :
    ∃ cc, python_complexity_from_code oneBlock12.ccVisit "x" = some cc ∧
      cc.avg = ((([⟨"f", 12⟩] : List CCBlock).map CCBlock.complexity).sum : Rat) /
        (([⟨"f", 12⟩] : List CCBlock).length : Rat) ∧
      ((complexityCheck oneBlock12 "x").1 = [] ↔ ¬ 6 < cc.avg) ∧
      (complexityCheck oneBlock12 "x").2.1 = some cc ∧
      (6 < cc.avg →
        (complexityCheck oneBlock12 "x").2.2 = min (2 * pyInt cc.avg) 20) :=
  C6_complexity_analyzer.1 oneBlock12 "x" [⟨"f", 12⟩] rfl (by decide)

/-- C7: for a Python file whose added fragment fails to parse for the
docstring check, `missing_docstrings` yields the unknown value `none`
(distinct from any count, in particular from zero), no docstring issue
is emitted and no error is raised, while the todo, complexity, print
and pyflakes checks on the same file still execute and contribute their
issues in order. -/
theorem C7_docstring_parse_failure (O : Oracles) (f : PyDictFile)
    (hpy : isPyFilename f.filename = true)
    (hfail : O.astWalk (extract_added_code (f.patch.getD "")) = none) :
    missing_docstrings O.astWalk (extract_added_code (f.patch.getD "")) = none ∧
    (∀ n : Nat,
      missing_docstrings O.astWalk (extract_added_code (f.patch.getD "")) ≠ some n) ∧
    docstringCheck O (extract_added_code (f.patch.getD "")) = ([], 0) ∧
    (analyzeFile O f).1.issues.filter (fun i => i.type == "docstring") = [] ∧
    (analyzeFile O f).1.issues =
      (todoCheck (f.patch.getD "")).1 ++
        ((complexityCheck O (extract_added_code (f.patch.getD ""))).1 ++
          ((printCheck (extract_added_code (f.patch.getD ""))).1 ++
            (pyflakesCheck O (extract_added_code (f.patch.getD ""))).1)) := by
  have hmd : missing_docstrings O.astWalk (extract_added_code (f.patch.getD "")) = none := by
    unfold missing_docstrings
    rw [hfail]
  have hdc : docstringCheck O (extract_added_code (f.patch.getD "")) = ([], 0) := by
    unfold docstringCheck
    rw [hmd]
  have hissues : (analyzeFile O f).1.issues =
      (todoCheck (f.patch.getD "")).1 ++
        ((complexityCheck O (extract_added_code (f.patch.getD ""))).1 ++
          ((printCheck (extract_added_code (f.patch.getD ""))).1 ++
            (pyflakesCheck O (extract_added_code (f.patch.getD ""))).1)) := by
    unfold analyzeFile
    dsimp only
    rw [if_pos hpy]
    dsimp only
    rw [hdc]
    simp
  refine ⟨hmd, fun n h => by rw [hmd] at h; exact Option.noConfusion h, hdc, ?_, hissues⟩
  rw [hissues]
  have ht : List.filter (fun i => i.type == "docstring")
      (todoCheck (f.patch.getD "")).1 = [] :=
    filter_type_eq_nil _ _ (fun i hi => by rw [todoCheck_types _ i hi]; decide)
  have hcx : List.filter (fun i => i.type == "docstring")
      (complexityCheck O (extract_added_code (f.patch.getD ""))).1 = [] :=
    filter_type_eq_nil _ _ (fun i hi => by rw [complexityCheck_types O _ i hi]; decide)
  have hpr : List.filter (fun i => i.type == "docstring")
      (printCheck (extract_added_code (f.patch.getD ""))).1 = [] :=
    filter_type_eq_nil _ _ (fun i hi => by rw [printCheck_types _ i hi]; decide)
  have hpf : List.filter (fun i => i.type == "docstring")
      (pyflakesCheck O (extract_added_code (f.patch.getD ""))).1 = [] :=
    filter_type_eq_nil _ _ (fun i hi => by rw [pyflakesCheck_types O _ i hi]; decide)
  rw [List.filter_append, List.filter_append, List.filter_append, ht, hcx, hpr, hpf]
  simp

theorem C7_witness :
    missing_docstrings failParseOracles.astWalk
      (extract_added_code (pyFileEx.patch.getD "")) = none ∧
    (∀ n : Nat, missing_docstrings failParseOracles.astWalk
      (extract_added_code (pyFileEx.patch.getD "")) ≠ some n) ∧
    docstringCheck failParseOracles (extract_added_code (pyFileEx.patch.getD "")) = ([], 0) ∧
    (analyzeFile failParseOracles pyFileEx).1.issues.filter
      (fun i => i.type == "docstring") = [] ∧
    (analyzeFile failParseOracles pyFileEx).1.issues =
      (todoCheck (pyFileEx.patch.getD "")).1 ++
        ((complexityCheck failParseOracles (extract_added_code (pyFileEx.patch.getD ""))).1 ++
          ((printCheck (extract_added_code (pyFileEx.patch.getD ""))).1 ++
            (pyflakesCheck failParseOracles
              (extract_added_code (pyFileEx.patch.getD ""))).1)) :=
  C7_docstring_parse_failure failParseOracles pyFileEx (by decide) rfl

/-- C8: a diff text with zero `+++ b/` file markers parses to an empty
file list without aborting, and the analysis pipeline on an empty file
list produces the report `{files: [], final_score: 100, penalty: 0}`. -/
theorem C8_malformed_diff_empty_report :
    (∀ diff_text : String,
        (∀ l ∈ splitlines diff_text, isFileMarker l = false) →
        (parse_local_diff diff_text).files = []) ∧
    (∀ O : Oracles,
        analyze_pr O { files := [] } =
          { files := [], final_score := 100, penalty := 0 }) := by
  constructor
  · intro d h
    have := parseLines_noMarker_notCollecting (splitlines d) none [] h
    simpa [parse_local_diff] using this
  · intro O
    rfl

theorem C8_witness :
    (parse_local_diff "just text\nwithout any file markers").files = [] ∧
    analyze_pr trivialOracles { files := [] } =
      { files := [], final_score := 100, penalty := 0 } :=
  ⟨C8_malformed_diff_empty_report.1 "just text\nwithout any file markers" (by decide),
    C8_malformed_diff_empty_report.2 trivialOracles⟩

/-- C9: contrary to the claim, `run_pyflakes_on_code` deletes the
temporary file on no exit path: whenever the pyflakes binary is found,
the file written for the lint run is still on disk in the returned
state — after a successful run, a `CalledProcessError` with or without
output, and any other invocation error alike. -/
theorem C9_temp_file_never_deleted :
    (∀ (env : LintEnv) (code_text : String) (s : FsState),
        (run_pyflakes_on_code { env with whichPyflakes := true } code_text s).2.tempFiles =
          s.tempFiles ++ [(env.tempName, code_text)]) ∧
    (run_pyflakes_on_code ⟨true, "tmp0.py", .success "a.py:1: msg"⟩ "x = 1" ⟨[]⟩).2 =
      ⟨[("tmp0.py", "x = 1")]⟩ ∧
    (run_pyflakes_on_code ⟨true, "tmp0.py", .calledProcessError (some "a.py:1: msg")⟩
      "x = 1" ⟨[]⟩).2 = ⟨[("tmp0.py", "x = 1")]⟩ ∧
    (run_pyflakes_on_code ⟨true, "tmp0.py", .calledProcessError none⟩ "x = 1" ⟨[]⟩).2 =
      ⟨[("tmp0.py", "x = 1")]⟩ ∧
    (run_pyflakes_on_code ⟨true, "tmp0.py", .otherError⟩ "x = 1" ⟨[]⟩).2 =
      ⟨[("tmp0.py", "x = 1")]⟩ := by
  refine ⟨?_, rfl, rfl, rfl, rfl⟩
  intro env code_text s
  unfold run_pyflakes_on_code
  dsimp only
  cases env.invoke with
  | success out => rfl
  | calledProcessError o => cases o <;> rfl
  | otherError => rfl

/-- C10: the report's `penalty` field is the raw, unclamped sum of the
per-file penalties; on five non-Python files each carrying a secret
keyword the report carries penalty 125 > 100 while `final_score` is
0. -/
theorem C10_penalty_unclamped :
    (∀ (O : Oracles) (pr_data : PRInput),
        (analyze_pr O pr_data).penalty =
          (pr_data.files.map (fun f => (analyzeFile O f).2)).sum) ∧
    (∀ O : Oracles,
        (analyze_pr O secretsPR).penalty = 125 ∧
        100 < (analyze_pr O secretsPR).penalty ∧
        (analyze_pr O secretsPR).final_score = 0) := by
  constructor
  · intro O pr_data
    exact analyzeFiles_pen_sum O pr_data.files
  · intro O
    have h : (analyze_pr O secretsPR).penalty = 125 := rfl
    exact ⟨h, by rw [h]; norm_num, rfl⟩

end PRReview
